import Mathlib

/-!
Verification of the Tokenized Record Lifecycle of the todo-ts client.

The development shallowly embeds the business logic of the two App.tsx
variants (`src/frontend/src/App.tsx`, called the *frontend* variant, and
`src/src/App.tsx`, called the *src* variant): task creation
(`handleCreateSubmit`), task redemption (`handleCompleteSubmit`) and task
discovery (`loadTasks` / the discovery `useEffect`).  External collaborators
(the Signing Service / `WalletClient`, the PushDrop codec and the Chain
Verifier live in the external `@bsv/sdk` and `@bsv/wallet-toolbox-client`
packages, not in this repository) are modelled from the spec, or abstracted
as an environment of fallible calls (`Except String`), with the arguments
the code passes to them recorded in a trace so that theorems can speak
about which calls were issued and with what.

Modelling conventions:
- byte arrays (`number[]` in the source) are modelled as `List Char`;
  `Utils.toArray(s, 'utf8')` / `Utils.toUTF8` are the mutually inverse
  string/char-list conversions (UTF-8 encoding of a char sequence is an
  injective bijection onto its image, so the char sequence is a faithful
  stand-in for the byte sequence);
- hex serialization of scripts (`toHex` / `fromHex`) is injective, so a
  `Task.lockingScript` stores the script value itself;
- a thrown JS exception is modelled as `Except.error msg` where `msg` is
  the exception's `.message`; a `try`/`catch` block becomes a `match`.
-/

namespace Todo

/-- Byte arrays (`number[]`) as char lists; see the header comment. -/
abbrev Bytes := List Char

/-- BEEF evidence bundles are opaque binary blobs. -/
abbrev Beef := List Nat

/-- The `WalletProtocol` pair, e.g. `[0, 'todo list']`. -/
abbrev WalletProtocol := Nat × String

/-- `const TODO_PROTO_ADDR = '1ToDoDtKreEzbHYKFjmoBuduFmSXXUGZG'` (both variants). -/
def TODO_PROTO_ADDR : String := "1ToDoDtKreEzbHYKFjmoBuduFmSXXUGZG"

/-- `const PROTOCOL_ID: WalletProtocol = [0, 'todo list']` (frontend variant;
the src variant writes the literal `[0, 'todo list']` inline at every site). -/
def PROTOCOL_ID : WalletProtocol := (0, "todo list")

/-- `const KEY_ID = '1'`. -/
def KEY_ID : String := "1"

/-- `Utils.toArray(s, 'utf8')`: string to byte array. -/
def toArray (s : String) : Bytes := s.data

/-- `Utils.toUTF8(b)`: byte array back to string. -/
def toUTF8 (b : Bytes) : String := String.mk b

/-- Modelled from the spec: a locking script (`@bsv/sdk`'s `LockingScript`,
absent from src).  A script either carries the PushDrop shape — an
owner-key context (protocolID, keyID, counterparty) plus an ordered data
field list — or is some unrelated script (§4.1: "unrecognized scripts are
not this protocol's records"). -/
inductive PDScript where
  | pushdrop (protocolID : WalletProtocol) (keyID : String)
      (counterparty : String) (fields : List Bytes) : PDScript
  | unrelated (raw : Bytes) : PDScript
deriving DecidableEq

namespace PushDrop

/-- Modelled from the spec: `pushdrop.lock(fields, protocolID, keyID,
counterparty)` (§4.3, `@bsv/sdk`'s `PushDrop.lock`, absent from src)
produces a locking script committing to the ordered field list under the
owner key context. -/
def lock (fields : List Bytes) (protocolID : WalletProtocol)
    (keyID : String) (counterparty : String) : PDScript :=
  .pushdrop protocolID keyID counterparty fields

/-- Modelled from the spec: `PushDrop.decode(lockingScript)` (§4.1,
`@bsv/sdk`, absent from src) is the structural inverse of `lock`: it
recovers the ordered field list, and rejects (here: `none`, in the source:
a thrown "not recognized" error caught by the caller) any script that does
not carry exactly this protocol's two-field shape — exactly two fields,
the first being the namespace marker.  Decoding is purely structural and
does not touch encryption. -/
def decode : PDScript → Option (List Bytes)
  | .pushdrop _ _ _ fields =>
    match fields with
    | [f0, f1] => if f0 = toArray TODO_PROTO_ADDR then some [f0, f1] else none
    | _ => none
  | .unrelated _ => none

end PushDrop

/-- The Record Codec's `encode` (§4.1): the field list built inline at the
`pushdrop.lock` call site in `handleCreateSubmit` — exactly two fields,
namespace marker first, ciphertext second. -/
def encode (ciphertext : Bytes) : List Bytes :=
  [toArray TODO_PROTO_ADDR, ciphertext]

/-- Does a script carry this protocol's two-field shape (a PushDrop script
with exactly two fields whose first field is the namespace marker)? -/
def hasProtoShape : PDScript → Bool
  | .pushdrop _ _ _ [f0, _] => f0 = toArray TODO_PROTO_ADDR
  | _ => false

/-- Modelled from the spec: the context tag a ciphertext is bound to.  The
Signing Service scopes every encryption by the (protocolID, keyID) pair
(§4.2, §6); the service itself is external, so we use a reference model in
which the ciphertext carries its context and payload. -/
def ctxTag (protocolID : WalletProtocol) (keyID : String) : Bytes :=
  Nat.toDigits 10 protocolID.1 ++ [':'] ++ protocolID.2.data ++ [':'] ++ keyID.data

/-- Modelled from the spec: `walletClient.encrypt({plaintext, protocolID,
keyID})` (§4.2, §6; the Signing Service is external).  Reference model
satisfying the spec's laws: decryption under the identical context pair
inverts it, decryption under a different context fails. -/
def encrypt (protocolID : WalletProtocol) (keyID : String) (plaintext : Bytes) : Bytes :=
  ctxTag protocolID keyID ++ plaintext

/-- Modelled from the spec: `walletClient.decrypt({ciphertext, protocolID,
keyID})` (§4.2, §6).  Succeeds exactly when the ciphertext was produced
under the identical (protocolID, keyID) context pair. -/
def decrypt (protocolID : WalletProtocol) (keyID : String) (ciphertext : Bytes) : Option Bytes :=
  let tag := ctxTag protocolID keyID
  if ciphertext.take tag.length = tag then some (ciphertext.drop tag.length) else none

/-- A JS `number` as far as the validation logic observes it: `NaN` or an
integer value (the dialog produces `Number(e.target.value)`). -/
inductive JSNum where
  | nan : JSNum
  | int : Int → JSNum
deriving DecidableEq

/-- `createAmount === 0`. -/
def JSNum.eqZero : JSNum → Bool
  | .nan => false
  | .int v => v == 0

/-- `isNaN(createAmount)`. -/
def JSNum.isNaN : JSNum → Bool
  | .nan => true
  | .int _ => false

/-- `createAmount < 1` (false on `NaN`, as in JS). -/
def JSNum.ltOne : JSNum → Bool
  | .nan => false
  | .int v => v < 1

/-- `Number(createAmount)` once known non-`NaN`. -/
def JSNum.toInt : JSNum → Int
  | .nan => 0
  | .int v => v

/-- The `Task` interface (`src/frontend/src/types/types.d.ts`). -/
structure Task where
  task : String
  sats : Int
  outpoint : String
  lockingScript : PDScript
  beef : Option Beef
deriving DecidableEq

/-- One entry of the `outputs` array of `createAction` on the create path. -/
structure ActionOutput where
  lockingScript : PDScript
  satoshis : Int
  basket : String
  outputDescription : String
deriving DecidableEq

/-- The arguments of `walletClient.createAction` on the create path
(constant `options` elided). -/
structure CreateActionArgs where
  outputs : List ActionOutput
  description : String
deriving DecidableEq

/-- The result of `walletClient.createAction` on the create path:
`newToDoToken.txid` and `newToDoToken.tx`. -/
structure CreateActionResult where
  txid : String
  tx : Option Beef
deriving DecidableEq

/-- The arguments the code passes to `walletClient.encrypt`. -/
structure EncryptArgs where
  plaintext : Bytes
  protocolID : WalletProtocol
  keyID : String
deriving DecidableEq

/-- The arguments the code passes to `pushdrop.lock`. -/
structure LockArgs where
  fields : List Bytes
  protocolID : WalletProtocol
  keyID : String
  counterparty : String
deriving DecidableEq

/-- The external calls the create workflow can issue, each fallible. -/
structure CreateEnv where
  encrypt : Bytes → Except String Bytes
  lock : List Bytes → WalletProtocol → String → String → Except String PDScript
  createAction : CreateActionArgs → Except String CreateActionResult

/-- The observable result of one `handleCreateSubmit` invocation: the task
list afterwards, the `toast.error` message (if any), whether the success
toast fired, and the arguments of each external call that was issued
(`none` = the call was never made). -/
structure CreateOutcome where
  tasks : List Task
  errorToast : Option String
  successToast : Bool
  encryptArgs : Option EncryptArgs
  lockArgs : Option LockArgs
  createActionArgs : Option CreateActionArgs
deriving DecidableEq

/-- The `walletClient.encrypt` arguments built in `handleCreateSubmit`:
the UTF-8 task text under the fixed protocol/key context. -/
def encryptArgsOf (createTask : String) : EncryptArgs :=
  ⟨toArray createTask, PROTOCOL_ID, KEY_ID⟩

/-- The `pushdrop.lock` arguments built in `handleCreateSubmit`: the
two-field payload (namespace marker, ciphertext) under the same
protocol/key context, counterparty `'self'`. -/
def lockArgsOf (encryptedTask : Bytes) : LockArgs :=
  ⟨[toArray TODO_PROTO_ADDR, encryptedTask], PROTOCOL_ID, KEY_ID, "self"⟩

/-- The `walletClient.createAction` arguments built in
`handleCreateSubmit`: one output carrying the locking script and the
user's amount, in the `'todo tokens'` basket. -/
def createActionArgsOf (bitcoinOutputScript : PDScript) (amount : Int)
    (createTask : String) : CreateActionArgs :=
  ⟨[⟨bitcoinOutputScript, amount, "todo tokens", "New ToDo list item"⟩],
    "Create a TODO task: " ++ createTask⟩

/-- The task object built locally after a successful `createAction`
("performance optimization"): outpoint `${newToDoToken.txid}.0`. -/
def newTaskOf (createTask : String) (amount : Int) (newToDoToken : CreateActionResult)
    (bitcoinOutputScript : PDScript) : Task :=
  ⟨createTask, amount, newToDoToken.txid ++ ".0", bitcoinOutputScript, newToDoToken.tx⟩

/-- `handleCreateSubmit` (frontend variant, `src/frontend/src/App.tsx`
lines 103–216; the src variant differs only in toast wording and constants).
Validation happens before any external call; afterwards the phases run in
source order — encrypt, lock, createAction — and the first failure aborts
the invocation with its message surfaced verbatim (`toast.error((e as
Error).message)`); on success the new task is prepended to the list. -/
def handleCreateSubmit (env : CreateEnv) (createTask : String) (createAmount : JSNum)
    (tasks : List Task) : CreateOutcome :=
  if createTask = "" then
    { tasks := tasks, errorToast := some "Enter a task to complete!",
      successToast := false, encryptArgs := none, lockArgs := none, createActionArgs := none }
  else if createAmount.eqZero || createAmount.isNaN then
    { tasks := tasks, errorToast := some "Enter an amount for the new task!",
      successToast := false, encryptArgs := none, lockArgs := none, createActionArgs := none }
  else if createAmount.ltOne then
    { tasks := tasks, errorToast := some "The amount must at least 1 satoshi!",
      successToast := false, encryptArgs := none, lockArgs := none, createActionArgs := none }
  else
    match env.encrypt (encryptArgsOf createTask).plaintext with
    | .error m =>
      { tasks := tasks, errorToast := some m, successToast := false,
        encryptArgs := some (encryptArgsOf createTask), lockArgs := none,
        createActionArgs := none }
    | .ok encryptedTask =>
      match env.lock (lockArgsOf encryptedTask).fields (lockArgsOf encryptedTask).protocolID
          (lockArgsOf encryptedTask).keyID (lockArgsOf encryptedTask).counterparty with
      | .error m =>
        { tasks := tasks, errorToast := some m, successToast := false,
          encryptArgs := some (encryptArgsOf createTask),
          lockArgs := some (lockArgsOf encryptedTask), createActionArgs := none }
      | .ok bitcoinOutputScript =>
        match env.createAction (createActionArgsOf bitcoinOutputScript createAmount.toInt createTask) with
        | .error m =>
          { tasks := tasks, errorToast := some m, successToast := false,
            encryptArgs := some (encryptArgsOf createTask),
            lockArgs := some (lockArgsOf encryptedTask),
            createActionArgs := some (createActionArgsOf bitcoinOutputScript createAmount.toInt createTask) }
        | .ok newToDoToken =>
          { tasks := newTaskOf createTask createAmount.toInt newToDoToken bitcoinOutputScript :: tasks,
            errorToast := none, successToast := true,
            encryptArgs := some (encryptArgsOf createTask),
            lockArgs := some (lockArgsOf encryptedTask),
            createActionArgs := some (createActionArgsOf bitcoinOutputScript createAmount.toInt createTask) }

/-- The `txid` part of an outpoint string: `outpoint.split('.')[0]`, the
characters up to the first `'.'`. -/
def txidOf (outpoint : String) : String :=
  String.mk (outpoint.data.takeWhile (fun c => c != '.'))

/-- The `signableTransaction` returned by `createAction` on the redeem
path: the partially-built transaction's BEEF and the reference handle. -/
structure SignableTransaction where
  tx : Beef
  reference : String
deriving DecidableEq

/-- One entry of the `inputs` array of `createAction` on the redeem path. -/
structure RedeemInput where
  inputDescription : String
  outpoint : String
  unlockingScriptLength : Nat
deriving DecidableEq

/-- The arguments of `walletClient.createAction` on the redeem path
(constant `options` elided). -/
structure RedeemActionArgs where
  description : String
  inputBEEF : Option Beef
  inputs : List RedeemInput
deriving DecidableEq

/-- The arguments the code passes to `new PushDrop(walletClient).unlock`. -/
structure UnlockArgs where
  protocolID : WalletProtocol
  keyID : String
  counterparty : String
  signOutputs : String
  anyoneCanPay : Bool
  sats : Int
  lockingScript : PDScript
deriving DecidableEq

/-- The external calls the frontend redeem workflow can issue.
`createAction` submits the spend description, `parseTx` is
`Transaction.fromBEEF(signableTransaction.tx)`, `sign` is
`unlocker.sign(partialTx, 0)` yielding the unlocking script, and
`signAction` is `walletClient.signAction({reference, spends: {0: ...}})`. -/
structure RedeemEnv where
  createAction : RedeemActionArgs → Except String (Option SignableTransaction)
  parseTx : Beef → Except String Unit
  sign : Except String PDScript
  signAction : String → PDScript → Except String Unit

/-- The observable result of one `handleCompleteSubmit` invocation. -/
structure RedeemOutcome where
  tasks : List Task
  errorToast : Option String
  successToast : Bool
  unlockArgs : Option UnlockArgs
deriving DecidableEq

/-- The `catch` block of both redeem variants:
`toast.error(`Error completing task: ${(e as Error).message}`)`; the task
list is left as it was. -/
def redeemErr (tasks : List Task) (ua : Option UnlockArgs) (m : String) : RedeemOutcome :=
  { tasks := tasks, errorToast := some ("Error completing task: " ++ m),
    successToast := false, unlockArgs := ua }

/-- The truncated redemption description:
``let description = `Complete a TODO task: "${task}"`;``
`if (description.length > 128) description = description.substring(0, 128)`. -/
def redeemDescription (task : String) : String :=
  let description := "Complete a TODO task: \x22" ++ task ++ "\x22"
  if description.length > 128 then String.mk (description.data.take 128) else description

/-- The `createAction` arguments built on the redeem path. -/
def redeemArgsOf (st : Task) (beef : Option Beef) : RedeemActionArgs :=
  ⟨redeemDescription st.task, beef, [⟨"Complete a ToDo list item", st.outpoint, 73⟩]⟩

/-- The `PushDrop.unlock` arguments built on the redeem path: the same
protocol/key context as creation, `'self'`, signature scope `'all'`,
`anyoneCanPay = false`, and the expected amount and locking script taken
from the selected task. -/
def unlockArgsOf (st : Task) : UnlockArgs :=
  ⟨PROTOCOL_ID, KEY_ID, "self", "all", false, st.sats, st.lockingScript⟩

/-- `handleCompleteSubmit` (frontend variant, `src/frontend/src/App.tsx`
lines 219–310).  Phases in source order: `createAction` (spend skeleton),
`Transaction.fromBEEF`, `PushDrop.unlock` + `unlocker.sign`, `signAction`.
Any failure is caught and surfaced with the `Error completing task: `
prefix; only after `signAction` succeeds is the completed task filtered
out of the list (`prevTasks.filter(task => task !== selectedTask)`). -/
def handleCompleteSubmitF (env : RedeemEnv) (selectedTask : Option Task)
    (tasks : List Task) : RedeemOutcome :=
  match selectedTask with
  | none => redeemErr tasks none "selectedTask does not exist"
  | some st =>
    match env.createAction (redeemArgsOf st st.beef) with
    | .error m => redeemErr tasks none m
    | .ok none => redeemErr tasks none "Failed to create signable transaction"
    | .ok (some signableTransaction) =>
      match env.parseTx signableTransaction.tx with
      | .error m => redeemErr tasks none m
      | .ok _ =>
        match env.sign with
        | .error m => redeemErr tasks (some (unlockArgsOf st)) m
        | .ok unlockingScript =>
          match env.signAction signableTransaction.reference unlockingScript with
          | .error m => redeemErr tasks (some (unlockArgsOf st)) m
          | .ok _ =>
            { tasks := tasks.filter (fun task => task != st), errorToast := none,
              successToast := true, unlockArgs := some (unlockArgsOf st) }

/-- The external calls the src redeem workflow can issue; compared with the
frontend variant it first parses the stored evidence
(`Beef.fromBinary(selectedTask.beef)`) and verifies it against the Chain
Verifier (`loadedBeef.verify(await new Services('main').getChainTracker(),
true)`), whose boolean result the code binds to `ok`. -/
structure RedeemEnvS where
  fromBinary : Option Beef → Except String Beef
  verify : Beef → Except String Bool
  createAction : RedeemActionArgs → Except String (Option SignableTransaction)
  parseTx : Beef → Except String Unit
  sign : Except String PDScript
  signAction : String → PDScript → Except String Unit

/-- `tasks.findIndex(x => x === selectedTask)` followed by
`splice(index, 1)`: remove the first occurrence. -/
def removeFirstTask (tasks : List Task) (st : Task) : List Task :=
  match tasks.findIdx? (fun x => x == st) with
  | some index => tasks.eraseIdx index
  | none => tasks

/-- `handleCompleteSubmit` (src variant, `src/src/App.tsx` lines 221–333).
After parsing the evidence it calls the Chain Verifier and binds the
boolean result to `ok` — which is then never mentioned again: execution
continues into `createAction` identically for `ok = true` and
`ok = false`, with no warning.  The rest mirrors the frontend variant,
except that success removes the first matching task
(`findIndex` / `splice`). -/
def handleCompleteSubmitS (env : RedeemEnvS) (selectedTask : Option Task)
    (tasks : List Task) : RedeemOutcome :=
  match selectedTask with
  | none => redeemErr tasks none "selectedTask does not exist"
  | some st =>
    match env.fromBinary st.beef with
    | .error m => redeemErr tasks none m
    | .ok loadedBeef =>
      match env.verify loadedBeef with
      | .error m => redeemErr tasks none m
      | .ok _ok =>
        match env.createAction (redeemArgsOf st (some loadedBeef)) with
        | .error m => redeemErr tasks none m
        | .ok none => redeemErr tasks none "Failed to create signable transaction"
        | .ok (some signableTransaction) =>
          match env.parseTx signableTransaction.tx with
          | .error m => redeemErr tasks none m
          | .ok _ =>
            match env.sign with
            | .error m => redeemErr tasks (some (unlockArgsOf st)) m
            | .ok unlockingScript =>
              match env.signAction signableTransaction.reference unlockingScript with
              | .error m => redeemErr tasks (some (unlockArgsOf st)) m
              | .ok _ =>
                { tasks := removeFirstTask tasks st, errorToast := none,
                  successToast := true, unlockArgs := some (unlockArgsOf st) }

/-- One output as returned by `walletClient.listOutputs` (a `WalletOutput`):
its outpoint string and possibly missing satoshi amount. -/
structure WalletOutput where
  outpoint : String
  satoshis : Option Int
deriving DecidableEq

/-- A parsed transaction as far as discovery observes it: its outputs'
locking scripts. -/
structure TxModel where
  outputs : List PDScript
deriving DecidableEq

/-- The result of `walletClient.listOutputs({basket: 'todo tokens', ...})`. -/
structure ListOutputsResult where
  outputs : List WalletOutput
  BEEF : Beef
deriving DecidableEq

/-- The external calls discovery can issue: `Transaction.fromBEEF(BEEF,
txid)` (throws when the txid is not in the bundle), and
`walletClient.decrypt({ciphertext, protocolID, keyID})`. -/
structure DiscoverEnv where
  fromBEEF : Beef → String → Except String TxModel
  decrypt : Bytes → WalletProtocol → String → Except String Bytes

/-- The final value of the closure-shared `txid` variable.  Both variants
declare `let txid: string` ONCE, outside the `outputs.map(async ...)`
callbacks.  Each callback assigns it synchronously and the `Promise.all`
fan-out runs every callback's synchronous prefix (assignment, BEEF
parse, decode) to its first `await` before any decrypt continuation can
resume; the only LATER read of `txid` — building the record's outpoint
string — therefore always sees the last assignment: the txid of the last
output in the store's list (`""` stands for the never-read uninitialized
value when the list is empty). -/
def lastTxid (outputs : List WalletOutput) : String :=
  txidOf (((outputs.getLast?).map WalletOutput.outpoint).getD "")

/-- The per-record body of discovery (frontend variant,
`src/frontend/src/App.tsx` lines 336–363): the whole body sits in a
`try`/`catch` returning `null` on any failure, modelled as `Option`.
The BEEF lookup uses the record's own txid (read synchronously right
after the assignment), and the locking script is read from
`tx!.outputs[0]`; but the outpoint recorded after the decrypt `await` is
`${txid}.0` where `txid` is the closure-shared variable — by then holding
the LAST output's txid (`sharedTxid`) — so both its txid and its fixed
`.0` index ignore the outpoint the store reported in `task.outpoint`. -/
def processOutput (env : DiscoverEnv) (beef : Beef) (task : WalletOutput)
    (sharedTxid : String) : Option Task := do
  let txid := txidOf task.outpoint
  let tx ← (env.fromBEEF beef txid).toOption
  let lockingScript ← tx.outputs[0]?
  let decodedTask ← PushDrop.decode lockingScript
  let encryptedTask ← decodedTask[1]?
  let plaintext ← (env.decrypt encryptedTask PROTOCOL_ID KEY_ID).toOption
  some { lockingScript := lockingScript, outpoint := sharedTxid ++ ".0",
         sats := task.satoshis.getD 0, task := toUTF8 plaintext, beef := some beef }

/-- `loadTasks` (frontend variant) after a successful `listOutputs`: map
each output through the per-record body (all of them reading the shared
`txid` left over from the last output), filter out the `null` results,
and reverse so the newest tasks show up at the top. -/
def loadTasks (env : DiscoverEnv) (res : ListOutputsResult) : List Task :=
  (((res.outputs.map
      (fun task => processOutput env res.BEEF task (lastTxid res.outputs))).filterMap id)).reverse

/-- The per-record body of discovery (src variant, `src/src/App.tsx` lines
357–386): identical to the frontend variant except that the recorded
outpoint is `${txid}.${i}` where `i` is the output's position in the
returned list (and `txid` is again the stale closure-shared variable);
the BEEF lookup uses `task.outpoint.split('.')[0]` computed afresh. -/
def processOutputS (env : DiscoverEnv) (beef : Beef) (task : WalletOutput) (i : Nat)
    (sharedTxid : String) : Option Task := do
  let txid := txidOf task.outpoint
  let tx ← (env.fromBEEF beef txid).toOption
  let lockingScript ← tx.outputs[0]?
  let decodedTask ← PushDrop.decode lockingScript
  let encryptedTask ← decodedTask[1]?
  let plaintext ← (env.decrypt encryptedTask PROTOCOL_ID KEY_ID).toOption
  some { lockingScript := lockingScript, outpoint := sharedTxid ++ "." ++ toString i,
         sats := task.satoshis.getD 0, task := toUTF8 plaintext, beef := some beef }

/-- The discovery `useEffect` body (src variant) after a successful
`listOutputs`. -/
def loadTasksS (env : DiscoverEnv) (res : ListOutputsResult) : List Task :=
  (((res.outputs.mapIdx
      (fun i task => processOutputS env res.BEEF task i (lastTxid res.outputs))).filterMap id)).reverse

/-! Helper lemmas and sample environments shared by several claims. -/

theorem length_filterMap_id_map {α β : Type} (f : α → Option β) (l : List α) :
    ((l.map f).filterMap id).length = l.length - l.countP (fun a => (f a).isNone) := by
  induction l with
  | nil => rfl
  | cons a l ih =>
    have hle := List.countP_le_length (p := fun a => (f a).isNone) (l := l)
    cases h : f a with
    | none =>
      have h1 : ((a :: l).map f).filterMap id = (l.map f).filterMap id := by
        simp [List.map_cons, h, List.filterMap_cons]
      have h2 : (a :: l).countP (fun a => (f a).isNone)
          = l.countP (fun a => (f a).isNone) + 1 := by
        simp [List.countP_cons, h]
      rw [h1, h2, ih, List.length_cons]
      omega
    | some b =>
      have h1 : ((a :: l).map f).filterMap id = b :: (l.map f).filterMap id := by
        simp [List.map_cons, h, List.filterMap_cons]
      have h2 : (a :: l).countP (fun a => (f a).isNone)
          = l.countP (fun a => (f a).isNone) := by
        simp [List.countP_cons, h]
      rw [h1, h2, List.length_cons, ih, List.length_cons]
      omega

/-- A sample environment in which every external call of the create
workflow succeeds, with the encryption given by the reference model. -/
def sampleCreateEnv : CreateEnv where
  encrypt := fun pt => .ok (encrypt PROTOCOL_ID KEY_ID pt)
  lock := fun fields pid kid cp => .ok (PushDrop.lock fields pid kid cp)
  createAction := fun _ => .ok ⟨"aaaa", some [1, 2]⟩

/-- C3: a create request with empty task text, or a value that is 0, NaN
or below 1, is rejected before any asynchronous Signing Service call: no
encrypt, no lock and no createAction is issued, an error toast is
reported, and the task list is unchanged. -/
theorem create_invalid_rejected_before_any_call
    (env : CreateEnv) (createTask : String) (createAmount : JSNum) (tasks : List Task)
    (h : createTask = "" ∨ createAmount = JSNum.int 0 ∨ createAmount = JSNum.nan ∨
         ∃ v : Int, createAmount = JSNum.int v ∧ v < 1) :
    (handleCreateSubmit env createTask createAmount tasks).tasks = tasks ∧
    (handleCreateSubmit env createTask createAmount tasks).errorToast.isSome = true ∧
    (handleCreateSubmit env createTask createAmount tasks).encryptArgs = none ∧
    (handleCreateSubmit env createTask createAmount tasks).lockArgs = none ∧
    (handleCreateSubmit env createTask createAmount tasks).createActionArgs = none := by
  unfold handleCreateSubmit
  by_cases h1 : createTask = ""
  · simp [h1]
  · rcases h with h | h | h | ⟨v, hv, hlt⟩
    · exact absurd h h1
    · subst h; simp [h1, JSNum.eqZero, JSNum.isNaN]
    · subst h; simp [h1, JSNum.eqZero, JSNum.isNaN]
    · subst hv
      by_cases h0 : v = 0
      · subst h0; simp [h1, JSNum.eqZero, JSNum.isNaN]
      · simp [h1, JSNum.eqZero, JSNum.isNaN, JSNum.ltOne, h0, hlt]

theorem create_invalid_rejected_before_any_call_witness :
    (handleCreateSubmit sampleCreateEnv "Buy milk" (JSNum.int 0) []).tasks = [] ∧
    (handleCreateSubmit sampleCreateEnv "Buy milk" (JSNum.int 0) []).errorToast.isSome = true ∧
    (handleCreateSubmit sampleCreateEnv "Buy milk" (JSNum.int 0) []).encryptArgs = none ∧
    (handleCreateSubmit sampleCreateEnv "Buy milk" (JSNum.int 0) []).lockArgs = none ∧
    (handleCreateSubmit sampleCreateEnv "Buy milk" (JSNum.int 0) []).createActionArgs = none :=
  create_invalid_rejected_before_any_call sampleCreateEnv "Buy milk" (JSNum.int 0) []
    (Or.inr (Or.inl rfl))

/-- C4: a discovery pass over N candidate outputs of which K fail to
decode or decrypt returns exactly the N−K successfully decrypted records:
the length is N−K, and the returned records are exactly those for which
the per-record body succeeded (each failure yields `none`, modelling the
caught-and-logged exception, and is dropped by the filter; the body is a
total function, so no per-record exception escapes discovery). -/
theorem discovery_partial_failure_isolation (env : DiscoverEnv) (res : ListOutputsResult) :
    (loadTasks env res).length
      = res.outputs.length
        - res.outputs.countP
            (fun o => (processOutput env res.BEEF o (lastTxid res.outputs)).isNone) ∧
    (∀ t : Task, t ∈ loadTasks env res ↔
      ∃ o ∈ res.outputs, processOutput env res.BEEF o (lastTxid res.outputs) = some t) := by
  constructor
  · simpa [loadTasks] using
      length_filterMap_id_map
        (fun o => processOutput env res.BEEF o (lastTxid res.outputs)) res.outputs
  · intro t
    simp [loadTasks, List.mem_reverse, List.mem_filterMap, List.mem_map]

/-- The locking script the create workflow produces for plaintext `P`
(reference encryption, fields as built at the `pushdrop.lock` call site). -/
def sampleScript (P : String) : PDScript :=
  PushDrop.lock (encode (encrypt PROTOCOL_ID KEY_ID (toArray P))) PROTOCOL_ID KEY_ID "self"

/-- `walletClient.decrypt` wrapped as the fallible discovery call, backed
by the reference decryption model. -/
def walletDecrypt : Bytes → WalletProtocol → String → Except String Bytes :=
  fun ct pid kid =>
    match decrypt pid kid ct with
    | some pt => .ok pt
    | none => .error "decryption failed"

/-- A sample discovery environment: the evidence bundle knows transactions
`t1` and `t3` (each with one ToDo output) and nothing else. -/
def sampleDiscoverEnv : DiscoverEnv where
  fromBEEF := fun _ txid =>
    if txid = "t1" then .ok ⟨[sampleScript "a"]⟩
    else if txid = "t3" then .ok ⟨[sampleScript "c"]⟩
    else .error "missing"
  decrypt := walletDecrypt

/-- A sample store result: three candidate outputs of which the middle one
fails (its transaction is absent from the bundle). -/
def sampleOutputs : ListOutputsResult :=
  ⟨[⟨"t1.0", some 5⟩, ⟨"t2.0", some 6⟩, ⟨"t3.0", none⟩], [9]⟩

theorem discovery_partial_failure_isolation_witness :
    (loadTasks sampleDiscoverEnv sampleOutputs).length
      = sampleOutputs.outputs.length
        - sampleOutputs.outputs.countP
            (fun o => (processOutput sampleDiscoverEnv sampleOutputs.BEEF o
              (lastTxid sampleOutputs.outputs)).isNone) ∧
    ((loadTasks sampleDiscoverEnv sampleOutputs).length = 2 ∧
      ∃ o ∈ sampleOutputs.outputs,
        processOutput sampleDiscoverEnv sampleOutputs.BEEF o (lastTxid sampleOutputs.outputs)
          = some ((loadTasks sampleDiscoverEnv sampleOutputs).headD
              ⟨"", 0, "", .unrelated [], none⟩) ∧ sampleOutputs.outputs.length = 3) :=
  ⟨(discovery_partial_failure_isolation sampleDiscoverEnv sampleOutputs).1,
    by decide,
    by
      have h := (discovery_partial_failure_isolation sampleDiscoverEnv sampleOutputs).2
        ((loadTasks sampleDiscoverEnv sampleOutputs).headD ⟨"", 0, "", .unrelated [], none⟩)
      obtain ⟨o, ho, hp⟩ := h.mp (by decide)
      exact ⟨o, ho, hp, by decide⟩⟩

/-- A discovery environment in which all three of `t1`, `t2`, `t3` are in
the bundle, each a one-output ToDo transaction. -/
def sampleDiscoverEnvAll : DiscoverEnv where
  fromBEEF := fun _ txid =>
    if txid = "t1" then .ok ⟨[sampleScript "a"]⟩
    else if txid = "t2" then .ok ⟨[sampleScript "b"]⟩
    else if txid = "t3" then .ok ⟨[sampleScript "c"]⟩
    else .error "missing"
  decrypt := walletDecrypt

/-- The store result for the all-success discovery sample. -/
def sampleOutputsAll : ListOutputsResult :=
  ⟨[⟨"t1.0", some 5⟩, ⟨"t2.0", some 6⟩, ⟨"t3.0", some 7⟩], [9]⟩

/-- The task the discovery sample catalogues for plaintext `P`: note the
outpoint records `t3` — the stale shared txid of the LAST output — for
every record of the all-success sample. -/
def sampleTask (P : String) (sats : Int) : Task :=
  ⟨P, sats, "t3.0", sampleScript P, some [9]⟩

/-- C5: newest-created first.  Discovery of store-order records R1, R2, R3
(oldest to newest) catalogues exactly the reversal [R3, R2, R1]; and a
successful create prepends the locally built record at list position 0,
the rest of the list staying as it was — no re-discovery happens (the
create workflow issues no `listOutputs` call at all: its environment has
only `encrypt`, `lock` and `createAction`). -/
theorem catalog_newest_first
    (env : DiscoverEnv) (res : ListOutputsResult)
    (o1 o2 o3 : WalletOutput) (r1 r2 r3 : Task)
    (ho : res.outputs = [o1, o2, o3])
    (h1 : processOutput env res.BEEF o1 (lastTxid res.outputs) = some r1)
    (h2 : processOutput env res.BEEF o2 (lastTxid res.outputs) = some r2)
    (h3 : processOutput env res.BEEF o3 (lastTxid res.outputs) = some r3)
    (cenv : CreateEnv) (createTask : String) (v : Int) (tasks : List Task)
    (ct : Bytes) (script : PDScript) (actionRes : CreateActionResult)
    (hne : createTask ≠ "") (hv : 1 ≤ v)
    (henc : cenv.encrypt (toArray createTask) = .ok ct)
    (hlock : cenv.lock [toArray TODO_PROTO_ADDR, ct] PROTOCOL_ID KEY_ID "self" = .ok script)
    (hca : cenv.createAction (createActionArgsOf script v createTask) = .ok actionRes) :
    loadTasks env res = [r3, r2, r1] ∧
    (handleCreateSubmit cenv createTask (JSNum.int v) tasks).tasks
      = newTaskOf createTask v actionRes script :: tasks := by
  constructor
  · rw [ho] at h1 h2 h3
    simp [loadTasks, ho, h1, h2, h3]
  · have h0 : (JSNum.int v).eqZero = false := by
      simp only [JSNum.eqZero, beq_eq_false_iff_ne, ne_eq]
      omega
    have hl : (JSNum.int v).ltOne = false := by
      simp only [JSNum.ltOne, decide_eq_false_iff_not, not_lt]
      omega
    simp [handleCreateSubmit, hne, h0, hl, JSNum.isNaN, JSNum.toInt,
      encryptArgsOf, lockArgsOf, henc, hlock, hca]

/-- A create environment whose `createAction` always succeeds with a fixed
txid, encryption and locking given by the reference models. -/
def happyCreateEnv : CreateEnv where
  encrypt := fun pt => .ok (encrypt PROTOCOL_ID KEY_ID pt)
  lock := fun fields pid kid cp => .ok (PushDrop.lock fields pid kid cp)
  createAction := fun _ => .ok ⟨"cccc", none⟩

theorem catalog_newest_first_witness :
    loadTasks sampleDiscoverEnvAll sampleOutputsAll
      = [sampleTask "c" 7, sampleTask "b" 6, sampleTask "a" 5] ∧
    (handleCreateSubmit happyCreateEnv "Buy milk" (JSNum.int 1000) []).tasks
      = newTaskOf "Buy milk" 1000 ⟨"cccc", none⟩
          (PushDrop.lock [toArray TODO_PROTO_ADDR, encrypt PROTOCOL_ID KEY_ID (toArray "Buy milk")]
            PROTOCOL_ID KEY_ID "self") :: [] :=
  catalog_newest_first sampleDiscoverEnvAll sampleOutputsAll
    ⟨"t1.0", some 5⟩ ⟨"t2.0", some 6⟩ ⟨"t3.0", some 7⟩
    (sampleTask "a" 5) (sampleTask "b" 6) (sampleTask "c" 7)
    rfl (by decide) (by decide) (by decide)
    happyCreateEnv "Buy milk" 1000 []
    (encrypt PROTOCOL_ID KEY_ID (toArray "Buy milk"))
    (PushDrop.lock [toArray TODO_PROTO_ADDR, encrypt PROTOCOL_ID KEY_ID (toArray "Buy milk")]
      PROTOCOL_ID KEY_ID "self")
    ⟨"cccc", none⟩ (by decide) (by omega) rfl rfl rfl

/-- C6: whenever a create invocation reaches `pushdrop.lock`, the field
list it passes is exactly the two-element list [namespace marker (UTF-8
encoding of `TODO_PROTO_ADDR`), ciphertext returned by `encrypt` for the
task's plaintext payload], in that order — i.e. exactly `encode` of the
ciphertext, with no other payload fields. -/
theorem lock_commits_exactly_two_fields
    (env : CreateEnv) (createTask : String) (createAmount : JSNum) (tasks : List Task)
    (la : LockArgs)
    (h : (handleCreateSubmit env createTask createAmount tasks).lockArgs = some la) :
    ∃ ct : Bytes, env.encrypt (toArray createTask) = .ok ct ∧
      la.fields = [toArray TODO_PROTO_ADDR, ct] ∧
      la.fields = encode ct ∧ la.fields.length = 2 := by
  by_cases h1 : createTask = ""
  · simp [handleCreateSubmit, h1] at h
  by_cases h2 : (createAmount.eqZero || createAmount.isNaN) = true
  · simp [handleCreateSubmit, h1, h2] at h
  by_cases h3 : createAmount.ltOne = true
  · simp [handleCreateSubmit, h1, h2, h3] at h
  cases henc : env.encrypt (toArray createTask) with
  | error m =>
    simp [handleCreateSubmit, h1, h2, h3, encryptArgsOf, henc] at h
  | ok ct =>
    refine ⟨ct, rfl, ?_⟩
    cases hlock : env.lock [toArray TODO_PROTO_ADDR, ct] PROTOCOL_ID KEY_ID "self" with
    | error m =>
      simp [handleCreateSubmit, h1, h2, h3, encryptArgsOf, lockArgsOf, henc, hlock] at h
      subst h
      simp [lockArgsOf, encode]
    | ok script =>
      cases hca : env.createAction (createActionArgsOf script createAmount.toInt createTask) with
      | error m =>
        simp [handleCreateSubmit, h1, h2, h3, encryptArgsOf, lockArgsOf, henc, hlock, hca] at h
        subst h
        simp [lockArgsOf, encode]
      | ok actionRes =>
        simp [handleCreateSubmit, h1, h2, h3, encryptArgsOf, lockArgsOf, henc, hlock, hca] at h
        subst h
        simp [lockArgsOf, encode]

theorem lock_commits_exactly_two_fields_witness :
    ∃ ct : Bytes, happyCreateEnv.encrypt (toArray "Buy milk") = .ok ct ∧
      (lockArgsOf (encrypt PROTOCOL_ID KEY_ID (toArray "Buy milk"))).fields
        = [toArray TODO_PROTO_ADDR, ct] ∧
      (lockArgsOf (encrypt PROTOCOL_ID KEY_ID (toArray "Buy milk"))).fields = encode ct ∧
      (lockArgsOf (encrypt PROTOCOL_ID KEY_ID (toArray "Buy milk"))).fields.length = 2 := by
  have h := lock_commits_exactly_two_fields happyCreateEnv "Buy milk" (JSNum.int 1000) []
    (lockArgsOf (encrypt PROTOCOL_ID KEY_ID (toArray "Buy milk"))) (by decide)
  exact h

/-- A discovery environment whose bundle holds one transaction `t9` whose
first output is an unrelated (non-PushDrop) script. -/
def sampleDiscoverEnvUnrecognized : DiscoverEnv where
  fromBEEF := fun _ txid =>
    if txid = "t9" then .ok ⟨[PDScript.unrelated (toArray "junk")]⟩
    else .error "missing"
  decrypt := walletDecrypt

/-- C7: decoding is the structural inverse of encoding — for every
ciphertext (hence every plaintext P), decoding the locking script built
from the encoded field list yields back exactly that two-field list; every
script that does not carry this protocol's two-field shape (wrong or
absent namespace marker, wrong field count, or an unrelated script) is
rejected by decode; and during discovery such a record is skipped (the
per-record body yields `none`, so by C4's filtering it is not catalogued
and does not abort discovery). -/
theorem codec_decode_inverse_of_lock :
    (∀ (ct : Bytes) (pid : WalletProtocol) (kid cp : String),
      PushDrop.decode (PushDrop.lock (encode ct) pid kid cp) = some (encode ct)) ∧
    (∀ s : PDScript, hasProtoShape s = false → PushDrop.decode s = none) ∧
    (∀ s : PDScript, hasProtoShape s = true → ∃ fs, PushDrop.decode s = some fs) ∧
    (∀ (env : DiscoverEnv) (beef : Beef) (out : WalletOutput) (sharedTxid : String)
        (tx : TxModel) (s : PDScript),
      env.fromBEEF beef (txidOf out.outpoint) = .ok tx →
      tx.outputs[0]? = some s →
      PushDrop.decode s = none →
      processOutput env beef out sharedTxid = none) := by
  refine ⟨?_, ?_, ?_, ?_⟩
  · intro ct pid kid cp
    simp [PushDrop.decode, PushDrop.lock, encode]
  · intro s hs
    cases s with
    | unrelated raw => rfl
    | pushdrop pid kid cp fields =>
      match fields with
      | [] => rfl
      | [f0] => rfl
      | [f0, f1] =>
        simp [hasProtoShape] at hs
        simp [PushDrop.decode, hs]
      | f0 :: f1 :: f2 :: fs => rfl
  · intro s hs
    cases s with
    | unrelated raw => simp [hasProtoShape] at hs
    | pushdrop pid kid cp fields =>
      match fields with
      | [] => simp [hasProtoShape] at hs
      | [f0] => simp [hasProtoShape] at hs
      | [f0, f1] =>
        simp [hasProtoShape] at hs
        exact ⟨[f0, f1], by simp [PushDrop.decode, hs]⟩
      | f0 :: f1 :: f2 :: fs => simp [hasProtoShape] at hs
  · intro env beef out sharedTxid tx s htx hs hdec
    simp [processOutput, htx, Except.toOption, hs, hdec]

theorem codec_decode_inverse_of_lock_witness :
    PushDrop.decode
        (PushDrop.lock (encode (toArray "ciphertext")) PROTOCOL_ID KEY_ID "self")
      = some (encode (toArray "ciphertext")) ∧
    PushDrop.decode (PDScript.unrelated (toArray "junk")) = none ∧
    PushDrop.decode (PDScript.pushdrop PROTOCOL_ID KEY_ID "self" [toArray "wrong marker", toArray "x"])
      = none ∧
    processOutput sampleDiscoverEnvUnrecognized [9] ⟨"t9.0", some 5⟩ "t9" = none :=
  ⟨codec_decode_inverse_of_lock.1 (toArray "ciphertext") PROTOCOL_ID KEY_ID "self",
    codec_decode_inverse_of_lock.2.1 (PDScript.unrelated (toArray "junk")) (by decide),
    codec_decode_inverse_of_lock.2.1
      (PDScript.pushdrop PROTOCOL_ID KEY_ID "self" [toArray "wrong marker", toArray "x"])
      (by decide),
    codec_decode_inverse_of_lock.2.2.2 sampleDiscoverEnvUnrecognized [9] ⟨"t9.0", some 5⟩ "t9"
      ⟨[PDScript.unrelated (toArray "junk")]⟩ (PDScript.unrelated (toArray "junk"))
      rfl rfl rfl⟩

/-- A one-transaction discovery environment whose sole output is the
locking script created for plaintext `P`. -/
def endToEndEnv (P : String) : DiscoverEnv where
  fromBEEF := fun _ _ => .ok ⟨[sampleScript P]⟩
  decrypt := walletDecrypt

/-- C8: the (protocolID, keyID) context passed to `encrypt` at creation is
exactly the ([0, 'todo list'], '1') pair the discovery pass hands to
`decrypt`, so under the Signing Service's inverse law the plaintext is
recovered exactly: `decrypt(encrypt(P)) = P` for every payload, and a
record created for P is discovered with task text P. -/
theorem encryption_context_roundtrip :
    (∀ P : String,
      decrypt PROTOCOL_ID KEY_ID (encrypt PROTOCOL_ID KEY_ID (toArray P)) = some (toArray P)) ∧
    (∀ P : String, toUTF8 (toArray P) = P) ∧
    (∀ (env : CreateEnv) (createTask : String) (createAmount : JSNum)
        (tasks : List Task) (ea : EncryptArgs),
      (handleCreateSubmit env createTask createAmount tasks).encryptArgs = some ea →
      ea.protocolID = PROTOCOL_ID ∧ ea.keyID = KEY_ID ∧ ea.plaintext = toArray createTask) ∧
    (∀ (P : String) (out : WalletOutput) (beef : Beef) (sharedTxid : String),
      processOutput (endToEndEnv P) beef out sharedTxid
        = some ⟨P, out.satoshis.getD 0, sharedTxid ++ ".0", sampleScript P, some beef⟩) := by
  have hrt : ∀ P : String,
      decrypt PROTOCOL_ID KEY_ID (encrypt PROTOCOL_ID KEY_ID (toArray P)) = some (toArray P) := by
    intro P
    simp [decrypt, encrypt, List.take_left, List.drop_left]
  refine ⟨hrt, fun P => rfl, ?_, ?_⟩
  · intro env createTask createAmount tasks ea h
    by_cases h1 : createTask = ""
    · simp [handleCreateSubmit, h1] at h
    by_cases h2 : (createAmount.eqZero || createAmount.isNaN) = true
    · simp [handleCreateSubmit, h1, h2] at h
    by_cases h3 : createAmount.ltOne = true
    · simp [handleCreateSubmit, h1, h2, h3] at h
    cases henc : env.encrypt (toArray createTask) with
    | error m =>
      simp [handleCreateSubmit, h1, h2, h3, encryptArgsOf, henc] at h
      subst h
      exact ⟨rfl, rfl, rfl⟩
    | ok ct =>
      cases hlock : env.lock [toArray TODO_PROTO_ADDR, ct] PROTOCOL_ID KEY_ID "self" with
      | error m =>
        simp [handleCreateSubmit, h1, h2, h3, encryptArgsOf, lockArgsOf, henc, hlock] at h
        subst h
        exact ⟨rfl, rfl, rfl⟩
      | ok script =>
        cases hca : env.createAction (createActionArgsOf script createAmount.toInt createTask) with
        | error m =>
          simp [handleCreateSubmit, h1, h2, h3, encryptArgsOf, lockArgsOf, henc, hlock, hca] at h
          subst h
          exact ⟨rfl, rfl, rfl⟩
        | ok actionRes =>
          simp [handleCreateSubmit, h1, h2, h3, encryptArgsOf, lockArgsOf, henc, hlock, hca] at h
          subst h
          exact ⟨rfl, rfl, rfl⟩
  · intro P out beef sharedTxid
    have hdec : PushDrop.decode (sampleScript P)
        = some (encode (encrypt PROTOCOL_ID KEY_ID (toArray P))) := by
      simp [sampleScript, PushDrop.decode, PushDrop.lock, encode]
    have hrt' := hrt P
    simp only [toArray] at hrt'
    simp [processOutput, endToEndEnv, Except.toOption, hdec, encode, walletDecrypt, hrt',
      toUTF8, toArray]

theorem encryption_context_roundtrip_witness :
    decrypt PROTOCOL_ID KEY_ID (encrypt PROTOCOL_ID KEY_ID (toArray "Buy milk"))
      = some (toArray "Buy milk") ∧
    ((handleCreateSubmit happyCreateEnv "Buy milk" (JSNum.int 1000) []).encryptArgs
        = some (encryptArgsOf "Buy milk") ∧
      (encryptArgsOf "Buy milk").protocolID = PROTOCOL_ID ∧
      (encryptArgsOf "Buy milk").keyID = KEY_ID) ∧
    (processOutput (endToEndEnv "Buy milk") [9] ⟨"t1.0", some 1000⟩ "t1").map Task.task
      = some "Buy milk" :=
  ⟨encryption_context_roundtrip.1 "Buy milk",
    ⟨by decide,
      (encryption_context_roundtrip.2.2.1 happyCreateEnv "Buy milk" (JSNum.int 1000) []
        (encryptArgsOf "Buy milk") (by decide)).1,
      (encryption_context_roundtrip.2.2.1 happyCreateEnv "Buy milk" (JSNum.int 1000) []
        (encryptArgsOf "Buy milk") (by decide)).2.1⟩,
    by rw [encryption_context_roundtrip.2.2.2 "Buy milk" ⟨"t1.0", some 1000⟩ [9] "t1"]; rfl⟩

/-- A discovery environment whose bundle holds one transaction `m` with
two ToDo outputs (payloads "a" at index 0 and "b" at index 1). -/
def misindexEnv : DiscoverEnv where
  fromBEEF := fun _ txid =>
    if txid = "m" then .ok ⟨[sampleScript "a", sampleScript "b"]⟩
    else .error "missing"
  decrypt := walletDecrypt

/-- The task the frontend discovery pass catalogues for the store output
`m.1` under `misindexEnv`: it carries index-0 data. -/
def misindexTask : Task := ⟨"a", 5, "m.0", sampleScript "a", some [9]⟩

/-- C9: discovery reads the locking script from output index 0 of the
evidence transaction and records the identity with a fixed output index —
always `.0` in the frontend variant, the position `i` in the returned
list in the src variant — discarding the output index the store reported
in the outpoint (indeed the txid component it records is the
closure-shared variable's stale value, the last output's txid, so the
recorded identity depends on the reported outpoint not at all: every
record catalogued by a frontend discovery pass has outpoint
`lastTxid ++ ".0"`).  Consequently a record residing at output index 1 of
its transaction (store outpoint `m.1`) is catalogued with a wrong
identity (`m.0`) and with output 0's locking script rather than
output 1's. -/
theorem discovery_fixed_output_index :
    (∀ (env : DiscoverEnv) (beef : Beef) (out : WalletOutput) (sharedTxid : String) (t : Task),
      processOutput env beef out sharedTxid = some t →
      t.outpoint = sharedTxid ++ ".0" ∧
      ∃ tx, env.fromBEEF beef (txidOf out.outpoint) = .ok tx ∧
        tx.outputs[0]? = some t.lockingScript) ∧
    (∀ (env : DiscoverEnv) (beef : Beef) (out : WalletOutput) (i : Nat) (sharedTxid : String)
        (t : Task),
      processOutputS env beef out i sharedTxid = some t →
      t.outpoint = sharedTxid ++ "." ++ toString i ∧
      ∃ tx, env.fromBEEF beef (txidOf out.outpoint) = .ok tx ∧
        tx.outputs[0]? = some t.lockingScript) ∧
    (∀ (env : DiscoverEnv) (res : ListOutputsResult) (t : Task),
      t ∈ loadTasks env res → t.outpoint = lastTxid res.outputs ++ ".0") ∧
    (loadTasks misindexEnv ⟨[⟨"m.1", some 5⟩], [9]⟩ = [misindexTask] ∧
      misindexTask.outpoint ≠ "m.1" ∧
      (⟨[sampleScript "a", sampleScript "b"]⟩ : TxModel).outputs[1]?
        ≠ some misindexTask.lockingScript) := by
  have hF : ∀ (env : DiscoverEnv) (beef : Beef) (out : WalletOutput) (sharedTxid : String)
      (t : Task),
      processOutput env beef out sharedTxid = some t →
      t.outpoint = sharedTxid ++ ".0" ∧
      ∃ tx, env.fromBEEF beef (txidOf out.outpoint) = .ok tx ∧
        tx.outputs[0]? = some t.lockingScript := by
    intro env beef out sharedTxid t h
    simp only [processOutput, Option.bind_eq_bind, Option.bind_eq_some] at h
    obtain ⟨tx, htx, s, hs, fs, hd, f, hf, pt, hpt, heq⟩ := h
    cases hE : env.fromBEEF beef (txidOf out.outpoint) with
    | error m => rw [hE] at htx; simp [Except.toOption] at htx
    | ok tx' =>
      rw [hE] at htx
      simp [Except.toOption] at htx
      subst htx
      cases heq
      exact ⟨rfl, _, rfl, hs⟩
  refine ⟨hF, ?_, ?_, by decide, by decide, by decide⟩
  · intro env beef out i sharedTxid t h
    simp only [processOutputS, Option.bind_eq_bind, Option.bind_eq_some] at h
    obtain ⟨tx, htx, s, hs, fs, hd, f, hf, pt, hpt, heq⟩ := h
    cases hE : env.fromBEEF beef (txidOf out.outpoint) with
    | error m => rw [hE] at htx; simp [Except.toOption] at htx
    | ok tx' =>
      rw [hE] at htx
      simp [Except.toOption] at htx
      subst htx
      cases heq
      exact ⟨rfl, _, rfl, hs⟩
  · intro env res t ht
    simp only [loadTasks, List.mem_reverse, List.mem_filterMap, List.mem_map, id_eq] at ht
    obtain ⟨x, ⟨o, ho, rfl⟩, hx⟩ := ht
    exact (hF env res.BEEF o (lastTxid res.outputs) t hx).1

theorem discovery_fixed_output_index_witness :
    (misindexTask.outpoint = "m" ++ ".0" ∧
      ∃ tx, misindexEnv.fromBEEF [9] (txidOf "m.1") = .ok tx ∧
        tx.outputs[0]? = some misindexTask.lockingScript) ∧
    misindexTask.outpoint = lastTxid [⟨"m.1", some 5⟩] ++ ".0" :=
  ⟨discovery_fixed_output_index.1 misindexEnv [9] ⟨"m.1", some 5⟩ "m" misindexTask (by decide),
    discovery_fixed_output_index.2.2.1 misindexEnv ⟨[⟨"m.1", some 5⟩], [9]⟩ misindexTask
      (by decide)⟩

/-- A redeem environment in which every external call succeeds. -/
def happyRedeemEnv : RedeemEnv where
  createAction := fun _ => .ok (some ⟨[7], "ref"⟩)
  parseTx := fun _ => .ok ()
  sign := .ok (.unrelated [])
  signAction := fun _ _ => .ok ()

/-- C10: an output whose store entry omits the satoshi amount is
catalogued with `sats = 0` (`task.satoshis ?? 0`), although creation
requires a value of at least 1; and a redemption of such a task passes
exactly `selectedTask.sats` — hence 0 — as the expected unlock amount to
`PushDrop.unlock`. -/
theorem missing_satoshis_catalogued_as_zero :
    (∀ (env : DiscoverEnv) (beef : Beef) (out : WalletOutput) (sharedTxid : String) (t : Task),
      out.satoshis = none → processOutput env beef out sharedTxid = some t → t.sats = 0) ∧
    (∀ (env : RedeemEnv) (st : Task) (tasks : List Task) (ua : UnlockArgs),
      (handleCompleteSubmitF env (some st) tasks).unlockArgs = some ua →
      ua.sats = st.sats ∧ ua.lockingScript = st.lockingScript) ∧
    (∀ (env : DiscoverEnv) (beef : Beef) (out : WalletOutput) (sharedTxid : String) (t : Task)
        (envR : RedeemEnv) (tasks : List Task) (ua : UnlockArgs),
      out.satoshis = none → processOutput env beef out sharedTxid = some t →
      (handleCompleteSubmitF envR (some t) tasks).unlockArgs = some ua →
      ua.sats = 0) := by
  have hsats : ∀ (env : DiscoverEnv) (beef : Beef) (out : WalletOutput) (sharedTxid : String)
      (t : Task),
      out.satoshis = none → processOutput env beef out sharedTxid = some t → t.sats = 0 := by
    intro env beef out sharedTxid t hnone h
    simp only [processOutput, Option.bind_eq_bind, Option.bind_eq_some] at h
    obtain ⟨tx, htx, s, hs, fs, hd, f, hf, pt, hpt, heq⟩ := h
    cases heq
    simp [hnone]
  have hunlock : ∀ (env : RedeemEnv) (st : Task) (tasks : List Task) (ua : UnlockArgs),
      (handleCompleteSubmitF env (some st) tasks).unlockArgs = some ua →
      ua.sats = st.sats ∧ ua.lockingScript = st.lockingScript := by
    intro env st tasks ua h
    simp only [handleCompleteSubmitF] at h
    split at h
    · simp [redeemErr] at h
    · simp [redeemErr] at h
    · split at h
      · simp [redeemErr] at h
      · split at h
        · simp [redeemErr] at h
          subst h
          exact ⟨rfl, rfl⟩
        · split at h
          · simp [redeemErr] at h
            subst h
            exact ⟨rfl, rfl⟩
          · simp at h
            subst h
            exact ⟨rfl, rfl⟩
  refine ⟨hsats, hunlock, ?_⟩
  intro env beef out sharedTxid t envR tasks ua hnone hp hu
  rw [(hunlock envR t tasks ua hu).1]
  exact hsats env beef out sharedTxid t hnone hp

/-- The task catalogued for the amount-less store output `t3.0`. -/
def zeroSatTask : Task := ⟨"c", 0, "t3.0", sampleScript "c", some [9]⟩

theorem missing_satoshis_catalogued_as_zero_witness :
    (⟨"t3.0", none⟩ : WalletOutput).satoshis = none ∧
    processOutput sampleDiscoverEnv [9] ⟨"t3.0", none⟩ "t3" = some zeroSatTask ∧
    (handleCompleteSubmitF happyRedeemEnv (some zeroSatTask) [zeroSatTask]).unlockArgs
      = some (unlockArgsOf zeroSatTask) ∧
    (unlockArgsOf zeroSatTask).sats = 0 :=
  ⟨rfl, by decide, by decide,
    missing_satoshis_catalogued_as_zero.2.2 sampleDiscoverEnv [9] ⟨"t3.0", none⟩ "t3" zeroSatTask
      happyRedeemEnv [zeroSatTask] (unlockArgsOf zeroSatTask) rfl (by decide) (by decide)⟩

/-- A redeem environment whose `createAction` fails with message "boom". -/
def boomRedeemEnv : RedeemEnv where
  createAction := fun _ => .error "boom"
  parseTx := fun _ => .ok ()
  sign := .ok (.unrelated [])
  signAction := fun _ _ => .ok ()

/-- A concrete catalogued task used for the failing-redeem example. -/
def tBoom : Task := ⟨"t", 5, "aaaa.0", .unrelated [], none⟩

/-- C2 counterexample: on a redeem whose transaction-assembly phase fails
with underlying message "boom", the task list is unchanged but the message
surfaced to the caller is "Error completing task: boom" — the underlying
message is wrapped, not surfaced verbatim/unmodified as the claim states. -/
theorem redeem_error_message_not_verbatim :
    (handleCompleteSubmitF boomRedeemEnv (some tBoom) [tBoom]).tasks = [tBoom] ∧
    (handleCompleteSubmitF boomRedeemEnv (some tBoom) [tBoom]).errorToast
      = some "Error completing task: boom" ∧
    (handleCompleteSubmitF boomRedeemEnv (some tBoom) [tBoom]).errorToast ≠ some "boom" := by
  refine ⟨rfl, rfl, by decide⟩

/-- C2 (amended): if a create or redeem workflow fails at any phase
(encryption, script construction, transaction assembly, signing), the
task list is unchanged by that invocation — no record is added on a
failed create and none is removed on a failed redeem (in either variant).
The underlying error message is preserved: the create workflow surfaces
it verbatim, while the redeem workflow (both variants, at every phase —
evidence parsing, verification, transaction assembly, signable-missing,
transaction parsing, proof signing, signature completion) surfaces it
with the constant prefix "Error completing task: " prepended. -/
theorem workflow_failure_atomicity :
    (∀ (env : CreateEnv) (createTask : String) (createAmount : JSNum) (tasks : List Task),
      (handleCreateSubmit env createTask createAmount tasks).successToast = false →
      (handleCreateSubmit env createTask createAmount tasks).tasks = tasks) ∧
    (∀ (env : CreateEnv) (createTask : String) (createAmount : JSNum) (tasks : List Task)
        (m : String),
      createTask ≠ "" → (createAmount.eqZero || createAmount.isNaN) = false →
      createAmount.ltOne = false →
      env.encrypt (toArray createTask) = .error m →
      (handleCreateSubmit env createTask createAmount tasks).errorToast = some m ∧
      (handleCreateSubmit env createTask createAmount tasks).tasks = tasks) ∧
    (∀ (env : CreateEnv) (createTask : String) (createAmount : JSNum) (tasks : List Task)
        (ct : Bytes) (m : String),
      createTask ≠ "" → (createAmount.eqZero || createAmount.isNaN) = false →
      createAmount.ltOne = false →
      env.encrypt (toArray createTask) = .ok ct →
      env.lock [toArray TODO_PROTO_ADDR, ct] PROTOCOL_ID KEY_ID "self" = .error m →
      (handleCreateSubmit env createTask createAmount tasks).errorToast = some m ∧
      (handleCreateSubmit env createTask createAmount tasks).tasks = tasks) ∧
    (∀ (env : CreateEnv) (createTask : String) (createAmount : JSNum) (tasks : List Task)
        (ct : Bytes) (script : PDScript) (m : String),
      createTask ≠ "" → (createAmount.eqZero || createAmount.isNaN) = false →
      createAmount.ltOne = false →
      env.encrypt (toArray createTask) = .ok ct →
      env.lock [toArray TODO_PROTO_ADDR, ct] PROTOCOL_ID KEY_ID "self" = .ok script →
      env.createAction (createActionArgsOf script createAmount.toInt createTask) = .error m →
      (handleCreateSubmit env createTask createAmount tasks).errorToast = some m ∧
      (handleCreateSubmit env createTask createAmount tasks).tasks = tasks) ∧
    (∀ (env : RedeemEnv) (st : Option Task) (tasks : List Task),
      (handleCompleteSubmitF env st tasks).successToast = false →
      (handleCompleteSubmitF env st tasks).tasks = tasks) ∧
    (∀ (env : RedeemEnvS) (st : Option Task) (tasks : List Task),
      (handleCompleteSubmitS env st tasks).successToast = false →
      (handleCompleteSubmitS env st tasks).tasks = tasks) ∧
    (∀ (env : RedeemEnv) (st : Task) (tasks : List Task) (m : String),
      env.createAction (redeemArgsOf st st.beef) = .error m →
      (handleCompleteSubmitF env (some st) tasks).errorToast
        = some ("Error completing task: " ++ m) ∧
      (handleCompleteSubmitF env (some st) tasks).tasks = tasks) ∧
    (∀ (env : RedeemEnv) (st : Task) (tasks : List Task),
      env.createAction (redeemArgsOf st st.beef) = .ok none →
      (handleCompleteSubmitF env (some st) tasks).errorToast
        = some ("Error completing task: " ++ "Failed to create signable transaction") ∧
      (handleCompleteSubmitF env (some st) tasks).tasks = tasks) ∧
    (∀ (env : RedeemEnv) (st : Task) (tasks : List Task) (sgn : SignableTransaction)
        (m : String),
      env.createAction (redeemArgsOf st st.beef) = .ok (some sgn) →
      env.parseTx sgn.tx = .error m →
      (handleCompleteSubmitF env (some st) tasks).errorToast
        = some ("Error completing task: " ++ m) ∧
      (handleCompleteSubmitF env (some st) tasks).tasks = tasks) ∧
    (∀ (env : RedeemEnv) (st : Task) (tasks : List Task) (sgn : SignableTransaction)
        (m : String),
      env.createAction (redeemArgsOf st st.beef) = .ok (some sgn) →
      env.parseTx sgn.tx = .ok () →
      env.sign = .error m →
      (handleCompleteSubmitF env (some st) tasks).errorToast
        = some ("Error completing task: " ++ m) ∧
      (handleCompleteSubmitF env (some st) tasks).tasks = tasks) ∧
    (∀ (env : RedeemEnv) (st : Task) (tasks : List Task) (sgn : SignableTransaction)
        (us : PDScript) (m : String),
      env.createAction (redeemArgsOf st st.beef) = .ok (some sgn) →
      env.parseTx sgn.tx = .ok () →
      env.sign = .ok us →
      env.signAction sgn.reference us = .error m →
      (handleCompleteSubmitF env (some st) tasks).errorToast
        = some ("Error completing task: " ++ m) ∧
      (handleCompleteSubmitF env (some st) tasks).tasks = tasks) ∧
    (∀ (env : RedeemEnvS) (st : Task) (tasks : List Task) (m : String),
      env.fromBinary st.beef = .error m →
      (handleCompleteSubmitS env (some st) tasks).errorToast
        = some ("Error completing task: " ++ m) ∧
      (handleCompleteSubmitS env (some st) tasks).tasks = tasks) ∧
    (∀ (env : RedeemEnvS) (st : Task) (tasks : List Task) (lb : Beef) (m : String),
      env.fromBinary st.beef = .ok lb →
      env.verify lb = .error m →
      (handleCompleteSubmitS env (some st) tasks).errorToast
        = some ("Error completing task: " ++ m) ∧
      (handleCompleteSubmitS env (some st) tasks).tasks = tasks) ∧
    (∀ (env : RedeemEnvS) (st : Task) (tasks : List Task) (lb : Beef) (b : Bool) (m : String),
      env.fromBinary st.beef = .ok lb →
      env.verify lb = .ok b →
      env.createAction (redeemArgsOf st (some lb)) = .error m →
      (handleCompleteSubmitS env (some st) tasks).errorToast
        = some ("Error completing task: " ++ m) ∧
      (handleCompleteSubmitS env (some st) tasks).tasks = tasks) ∧
    (∀ (env : RedeemEnvS) (st : Task) (tasks : List Task) (lb : Beef) (b : Bool),
      env.fromBinary st.beef = .ok lb →
      env.verify lb = .ok b →
      env.createAction (redeemArgsOf st (some lb)) = .ok none →
      (handleCompleteSubmitS env (some st) tasks).errorToast
        = some ("Error completing task: " ++ "Failed to create signable transaction") ∧
      (handleCompleteSubmitS env (some st) tasks).tasks = tasks) ∧
    (∀ (env : RedeemEnvS) (st : Task) (tasks : List Task) (lb : Beef) (b : Bool)
        (sgn : SignableTransaction) (m : String),
      env.fromBinary st.beef = .ok lb →
      env.verify lb = .ok b →
      env.createAction (redeemArgsOf st (some lb)) = .ok (some sgn) →
      env.parseTx sgn.tx = .error m →
      (handleCompleteSubmitS env (some st) tasks).errorToast
        = some ("Error completing task: " ++ m) ∧
      (handleCompleteSubmitS env (some st) tasks).tasks = tasks) ∧
    (∀ (env : RedeemEnvS) (st : Task) (tasks : List Task) (lb : Beef) (b : Bool)
        (sgn : SignableTransaction) (m : String),
      env.fromBinary st.beef = .ok lb →
      env.verify lb = .ok b →
      env.createAction (redeemArgsOf st (some lb)) = .ok (some sgn) →
      env.parseTx sgn.tx = .ok () →
      env.sign = .error m →
      (handleCompleteSubmitS env (some st) tasks).errorToast
        = some ("Error completing task: " ++ m) ∧
      (handleCompleteSubmitS env (some st) tasks).tasks = tasks) ∧
    (∀ (env : RedeemEnvS) (st : Task) (tasks : List Task) (lb : Beef) (b : Bool)
        (sgn : SignableTransaction) (us : PDScript) (m : String),
      env.fromBinary st.beef = .ok lb →
      env.verify lb = .ok b →
      env.createAction (redeemArgsOf st (some lb)) = .ok (some sgn) →
      env.parseTx sgn.tx = .ok () →
      env.sign = .ok us →
      env.signAction sgn.reference us = .error m →
      (handleCompleteSubmitS env (some st) tasks).errorToast
        = some ("Error completing task: " ++ m) ∧
      (handleCompleteSubmitS env (some st) tasks).tasks = tasks) ∧
    (∀ (env : RedeemEnv) (st : Option Task) (tasks : List Task),
      (handleCompleteSubmitF env st tasks).errorToast = none ∨
      ∃ m : String, (handleCompleteSubmitF env st tasks).errorToast
        = some ("Error completing task: " ++ m)) ∧
    (∀ (env : RedeemEnvS) (st : Option Task) (tasks : List Task),
      (handleCompleteSubmitS env st tasks).errorToast = none ∨
      ∃ m : String, (handleCompleteSubmitS env st tasks).errorToast
        = some ("Error completing task: " ++ m)) := by
  refine ⟨?_, ?_, ?_, ?_, ?_, ?_, ?_, ?_, ?_, ?_, ?_, ?_, ?_, ?_, ?_, ?_, ?_, ?_, ?_, ?_⟩
  · intro env createTask createAmount tasks
    unfold handleCreateSubmit
    split
    · intro _; rfl
    · split
      · intro _; rfl
      · split
        · intro _; rfl
        · split
          · intro _; rfl
          · split
            · intro _; rfl
            · split
              · intro _; rfl
              · intro hfalse; simp at hfalse
  · intro env createTask createAmount tasks m hne h2 h3 henc
    constructor <;> simp [handleCreateSubmit, hne, h2, h3, encryptArgsOf, henc]
  · intro env createTask createAmount tasks ct m hne h2 h3 henc hlock
    constructor <;>
      simp [handleCreateSubmit, hne, h2, h3, encryptArgsOf, lockArgsOf, henc, hlock]
  · intro env createTask createAmount tasks ct script m hne h2 h3 henc hlock hca
    constructor <;>
      simp [handleCreateSubmit, hne, h2, h3, encryptArgsOf, lockArgsOf, henc, hlock, hca]
  · intro env st tasks
    cases st with
    | none => intro _; rfl
    | some s =>
      simp only [handleCompleteSubmitF]
      split
      · intro _; rfl
      · intro _; rfl
      · split
        · intro _; rfl
        · split
          · intro _; rfl
          · split
            · intro _; rfl
            · intro hfalse; simp at hfalse
  · intro env st tasks
    cases st with
    | none => intro _; rfl
    | some s =>
      simp only [handleCompleteSubmitS]
      split
      · intro _; rfl
      · split
        · intro _; rfl
        · split
          · intro _; rfl
          · intro _; rfl
          · split
            · intro _; rfl
            · split
              · intro _; rfl
              · split
                · intro _; rfl
                · intro hfalse; simp at hfalse
  · intro env st tasks m hca
    constructor <;> simp [handleCompleteSubmitF, hca, redeemErr]
  · intro env st tasks hca
    constructor <;> simp [handleCompleteSubmitF, hca, redeemErr]
  · intro env st tasks sgn m hca hpt
    constructor <;> simp [handleCompleteSubmitF, hca, hpt, redeemErr]
  · intro env st tasks sgn m hca hpt hsig
    constructor <;> simp [handleCompleteSubmitF, hca, hpt, hsig, redeemErr]
  · intro env st tasks sgn us m hca hpt hsig hsa
    constructor <;> simp [handleCompleteSubmitF, hca, hpt, hsig, hsa, redeemErr]
  · intro env st tasks m hfb
    constructor <;> simp [handleCompleteSubmitS, hfb, redeemErr]
  · intro env st tasks lb m hfb hv
    constructor <;> simp [handleCompleteSubmitS, hfb, hv, redeemErr]
  · intro env st tasks lb b m hfb hv hca
    constructor <;> simp [handleCompleteSubmitS, hfb, hv, hca, redeemErr]
  · intro env st tasks lb b hfb hv hca
    constructor <;> simp [handleCompleteSubmitS, hfb, hv, hca, redeemErr]
  · intro env st tasks lb b sgn m hfb hv hca hpt
    constructor <;> simp [handleCompleteSubmitS, hfb, hv, hca, hpt, redeemErr]
  · intro env st tasks lb b sgn m hfb hv hca hpt hsig
    constructor <;> simp [handleCompleteSubmitS, hfb, hv, hca, hpt, hsig, redeemErr]
  · intro env st tasks lb b sgn us m hfb hv hca hpt hsig hsa
    constructor <;> simp [handleCompleteSubmitS, hfb, hv, hca, hpt, hsig, hsa, redeemErr]
  · intro env st tasks
    cases st with
    | none => exact Or.inr ⟨"selectedTask does not exist", rfl⟩
    | some s =>
      simp only [handleCompleteSubmitF]
      split
      · exact Or.inr ⟨_, rfl⟩
      · exact Or.inr ⟨_, rfl⟩
      · split
        · exact Or.inr ⟨_, rfl⟩
        · split
          · exact Or.inr ⟨_, rfl⟩
          · split
            · exact Or.inr ⟨_, rfl⟩
            · exact Or.inl rfl
  · intro env st tasks
    cases st with
    | none => exact Or.inr ⟨"selectedTask does not exist", rfl⟩
    | some s =>
      simp only [handleCompleteSubmitS]
      split
      · exact Or.inr ⟨_, rfl⟩
      · split
        · exact Or.inr ⟨_, rfl⟩
        · split
          · exact Or.inr ⟨_, rfl⟩
          · exact Or.inr ⟨_, rfl⟩
          · split
            · exact Or.inr ⟨_, rfl⟩
            · split
              · exact Or.inr ⟨_, rfl⟩
              · split
                · exact Or.inr ⟨_, rfl⟩
                · exact Or.inl rfl

/-- A src-variant redeem environment whose proof-signing call fails with
message "sigfail" while everything before it succeeds. -/
def signFailEnvS : RedeemEnvS where
  fromBinary := fun ob =>
    match ob with
    | some b => .ok b
    | none => .error "beef is undefined"
  verify := fun _ => .ok true
  createAction := fun _ => .ok (some ⟨[7], "ref"⟩)
  parseTx := fun _ => .ok ()
  sign := .error "sigfail"
  signAction := fun _ _ => .ok ()

/-- A catalogued task with stored evidence, used for the src-variant
failing-phase example. -/
def tSigned : Task := ⟨"s", 5, "bbbb.0", .unrelated [], some [3]⟩

theorem workflow_failure_atomicity_witness :
    ((handleCompleteSubmitF boomRedeemEnv (some tBoom) [tBoom]).errorToast
        = some ("Error completing task: " ++ "boom") ∧
      (handleCompleteSubmitF boomRedeemEnv (some tBoom) [tBoom]).tasks = [tBoom]) ∧
    ((handleCompleteSubmitS signFailEnvS (some tSigned) [tSigned]).errorToast
        = some ("Error completing task: " ++ "sigfail") ∧
      (handleCompleteSubmitS signFailEnvS (some tSigned) [tSigned]).tasks = [tSigned]) := by
  obtain ⟨h1, h2, h3, h4, h5, h6, h7, h8, h9, h10, h11, h12, h13, h14, h15, h16, h17, h18,
    h19, h20⟩ := workflow_failure_atomicity
  exact ⟨h7 boomRedeemEnv tBoom [tBoom] "boom" rfl,
    h17 signFailEnvS tSigned [tSigned] [3] true ⟨[7], "ref"⟩ "sigfail" rfl rfl rfl rfl rfl⟩

/-- A catalogued task with stored evidence, for the failing-verification
redemption example. -/
def tEvidence : Task := ⟨"t", 5, "aaaa.0", .unrelated [], some [3]⟩

/-- A src-variant redeem environment in which the Chain Verifier reports
the evidence bundle as INVALID (`verify` returns `false`) while every
other call succeeds. -/
def failVerifyEnv : RedeemEnvS where
  fromBinary := fun ob =>
    match ob with
    | some b => .ok b
    | none => .error "beef is undefined"
  verify := fun _ => .ok false
  createAction := fun _ => .ok (some ⟨[7], "ref"⟩)
  parseTx := fun _ => .ok ()
  sign := .ok (.unrelated [])
  signAction := fun _ _ => .ok ()

/-- C1 (refuted by the code): the src redemption workflow binds the Chain
Verifier's boolean result to `ok` and never reads it again — the entire
observable outcome is identical whether verification returned `true` or
`false`, and a redemption whose evidence fails verification completes
silently (no error, no warning), so the verification result IS silently
discarded, contrary to the claim. -/
theorem verification_result_silently_discarded :
    (∀ (env : RedeemEnvS) (b : Bool) (st : Option Task) (tasks : List Task),
      handleCompleteSubmitS { env with verify := fun _ => .ok b } st tasks
        = handleCompleteSubmitS { env with verify := fun _ => .ok true } st tasks) ∧
    ((handleCompleteSubmitS failVerifyEnv (some tEvidence) [tEvidence]).successToast = true ∧
      (handleCompleteSubmitS failVerifyEnv (some tEvidence) [tEvidence]).errorToast = none ∧
      (handleCompleteSubmitS failVerifyEnv (some tEvidence) [tEvidence]).tasks = []) := by
  refine ⟨?_, by decide, by decide, by decide⟩
  intro env b st tasks
  cases st with
  | none => rfl
  | some s =>
    cases h : env.fromBinary s.beef with
    | error m => simp [handleCompleteSubmitS, h]
    | ok lb => simp [handleCompleteSubmitS, h]

end Todo
